import Mathlib

/-!
Verification development for the `rdkafka-ext` typed Kafka client layer.

The Rust sources embedded here:
* `src/builders/mod.rs` — the three role builders (`ProducerConfigBuilder`,
  `ConsumerConfigBuilder`, `AdminConfigBuilder`) accumulating options into an
  `rdkafka::ClientConfig`;
* `src/builders/traits.rs` — the capability traits (`Set`, `KafkaConfigBuilder`,
  `SslConfigBuilder`, `SaslConfigBuilder`, `ApiTimeoutConfigBuilder`,
  `RetriesConfigBuilder`) whose default methods write fixed option keys;
* `src/builders/types.rs` — the enum option values and their textual forms;
* `src/lib.rs` — the typed façade (`TypedMessage`, `TypedProducer`,
  `TypedConsumer`, `TypedAdmin`) over the raw rdkafka client.

External collaborators (the rdkafka crate's `ClientConfig`, its error types,
and the serde_json codec) are modelled from the spec at their interface
boundary; each such definition carries a doc comment saying so.
-/

set_option autoImplicit false

namespace RdkafkaExt

/-- Modelled from the spec: `rdkafka::ClientConfig` is an external
collaborator; the spec describes a Connection Configuration as an ordered
accumulation of (name, value) options with last-write-wins storage
(`ClientConfig::set` inserts into a string map). We model it as an
association list in which `set` replaces the first entry with the given
key, or appends a fresh entry. -/
structure ClientConfig where
  entries : List (String × String)
deriving DecidableEq

def setEntries : List (String × String) → String → String → List (String × String)
  | [], k, v => [(k, v)]
  | (k0, v0) :: rest, k, v =>
    if k0 = k then (k, v) :: rest else (k0, v0) :: setEntries rest k v

def getEntry : List (String × String) → String → Option String
  | [], _ => none
  | (k0, v0) :: rest, k => if k0 = k then some v0 else getEntry rest k

/-- Source: `ClientConfig::new()` — the empty configuration. -/
def ClientConfig.new : ClientConfig := ⟨[]⟩

/-- Source: `ClientConfig::set(key, value)` (value already converted to its
textual form by the caller, as `Set::set` does via `ToString`). -/
def ClientConfig.set (c : ClientConfig) (k v : String) : ClientConfig :=
  ⟨setEntries c.entries k v⟩

/-- Lookup of an option name in the configuration. -/
def ClientConfig.get (c : ClientConfig) (k : String) : Option String :=
  getEntry c.entries k

/-- Source: `trait Set { fn set(&mut self, key: &str, value: impl ToString); }`
(`src/builders/traits.rs:5-7`); the textual conversion of the value is done
by the caller in this embedding. -/
class Set (β : Type) where
  set : β → String → String → β

/-- Source: `struct ProducerConfigBuilder { config: ClientConfig }`
(`src/builders/mod.rs:17-19`). -/
structure ProducerConfigBuilder where
  config : ClientConfig

/-- Source: `ProducerConfigBuilder::new` (`src/builders/mod.rs:21-25`). -/
def ProducerConfigBuilder.new : ProducerConfigBuilder := ⟨ClientConfig.new⟩

/-- Source: `ProducerConfigBuilder::build` (`src/builders/mod.rs:26-28`). -/
def ProducerConfigBuilder.build (b : ProducerConfigBuilder) : ClientConfig := b.config

/-- Source: `impl Set for ProducerConfigBuilder` (`src/builders/mod.rs:30-34`). -/
instance : Set ProducerConfigBuilder where
  set b k v := ⟨b.config.set k v⟩

/-- Source: `struct ConsumerConfigBuilder { config: ClientConfig }`
(`src/builders/mod.rs:44-46`). -/
structure ConsumerConfigBuilder where
  config : ClientConfig

/-- Source: `ConsumerConfigBuilder::new` (`src/builders/mod.rs:48-52`). -/
def ConsumerConfigBuilder.new : ConsumerConfigBuilder := ⟨ClientConfig.new⟩

/-- Source: `ConsumerConfigBuilder::build` (`src/builders/mod.rs:53-55`). -/
def ConsumerConfigBuilder.build (b : ConsumerConfigBuilder) : ClientConfig := b.config

/-- Source: `impl Set for ConsumerConfigBuilder` (`src/builders/mod.rs:57-61`). -/
instance : Set ConsumerConfigBuilder where
  set b k v := ⟨b.config.set k v⟩

/-- Source: `struct AdminConfigBuilder { config: ClientConfig }`
(`src/builders/mod.rs:194-196`). -/
structure AdminConfigBuilder where
  config : ClientConfig

/-- Source: `AdminConfigBuilder::new` (`src/builders/mod.rs:198-202`). -/
def AdminConfigBuilder.new : AdminConfigBuilder := ⟨ClientConfig.new⟩

/-- Source: `AdminConfigBuilder::build` (`src/builders/mod.rs:203-205`). -/
def AdminConfigBuilder.build (b : AdminConfigBuilder) : ClientConfig := b.config

/-- Source: `impl Set for AdminConfigBuilder` (`src/builders/mod.rs:207-211`). -/
instance : Set AdminConfigBuilder where
  set b k v := ⟨b.config.set k v⟩

/-- A sequence of raw option-setting calls applied through a builder's `Set`
implementation, left to right. -/
def applyCalls {β : Type} [Set β] (b : β) : List (String × String) → β
  | [] => b
  | (k, v) :: rest => applyCalls (Set.set b k v) rest

/-- Follows the spec's words: "the resulting Connection Configuration
contains exactly the last value set for each option name" — the value of the
last call in the sequence that sets the given name, if any. -/
def lastSetValue : List (String × String) → String → Option String
  | [], _ => none
  | (k0, v0) :: rest, k =>
    match lastSetValue rest k with
    | some v => some v
    | none => if k0 = k then some v0 else none

theorem getEntry_setEntries (es : List (String × String)) (k v k' : String) :
    getEntry (setEntries es k v) k' = if k' = k then some v else getEntry es k' := by
  induction es with
  | nil =>
    by_cases h : k' = k
    · simp [setEntries, getEntry, h]
    · simp [setEntries, getEntry, h, Ne.symm h]
  | cons hd tl ih =>
    obtain ⟨k0, v0⟩ := hd
    by_cases h0 : k0 = k
    · subst h0
      by_cases h : k' = k0
      · subst h
        simp [setEntries, getEntry]
      · simp [setEntries, getEntry, h, Ne.symm h]
    · by_cases h : k' = k
      · subst h
        simp [setEntries, getEntry, h0, Ne.symm h0, ih]
      · by_cases h1 : k0 = k'
        · subst h1
          simp [setEntries, getEntry, h0, h, ih]
        · simp [setEntries, getEntry, h0, h, h1, ih]

theorem ClientConfig.get_set (c : ClientConfig) (k v k' : String) :
    (c.set k v).get k' = if k' = k then some v else c.get k' :=
  getEntry_setEntries c.entries k v k'

theorem applyCalls_get {β : Type} [Set β] (config : β → ClientConfig)
    (hset : ∀ (b : β) (k v : String), config (Set.set b k v) = (config b).set k v)
    (calls : List (String × String)) :
    ∀ (b : β) (k : String),
      (config (applyCalls b calls)).get k =
        match lastSetValue calls k with
        | some v => some v
        | none => (config b).get k := by
  induction calls with
  | nil => intro b k; simp [applyCalls, lastSetValue]
  | cons hd tl ih =>
    obtain ⟨k0, v0⟩ := hd
    intro b k
    simp only [applyCalls, lastSetValue]
    rw [ih (Set.set b k0 v0) k]
    cases h : lastSetValue tl k with
    | some v => simp
    | none =>
      simp only [hset, ClientConfig.get_set]
      by_cases hk : k = k0
      · simp [hk]
      · have hk' : ¬ k0 = k := fun hc => hk hc.symm
        simp [hk, hk']

/-- Claim C4. For every sequence of option-setting calls on any of the three
role builders (Producer, Consumer, Admin), the configuration returned by
`build` contains, for each option name, exactly the value of the last call
that set that name (`lastSetValue`), hence last-write-wins, independent of
the interleaving of calls that set distinct names. -/
theorem C4_last_write_wins (calls : List (String × String)) (k : String) :
    (applyCalls ProducerConfigBuilder.new calls).build.get k = lastSetValue calls k
    ∧ (applyCalls ConsumerConfigBuilder.new calls).build.get k = lastSetValue calls k
    ∧ (applyCalls AdminConfigBuilder.new calls).build.get k = lastSetValue calls k := by
  have hP := applyCalls_get (β := ProducerConfigBuilder) ProducerConfigBuilder.config
    (fun _ _ _ => rfl) calls ProducerConfigBuilder.new k
  have hC := applyCalls_get (β := ConsumerConfigBuilder) ConsumerConfigBuilder.config
    (fun _ _ _ => rfl) calls ConsumerConfigBuilder.new k
  have hA := applyCalls_get (β := AdminConfigBuilder) AdminConfigBuilder.config
    (fun _ _ _ => rfl) calls AdminConfigBuilder.new k
  refine ⟨?_, ?_, ?_⟩ <;>
    [skip; skip; skip] <;>
    first
    | (rw [ProducerConfigBuilder.build, hP]; cases lastSetValue calls k <;> rfl)
    | (rw [ConsumerConfigBuilder.build, hC]; cases lastSetValue calls k <;> rfl)
    | (rw [AdminConfigBuilder.build, hA]; cases lastSetValue calls k <;> rfl)

/-- Modelled from the spec: `std::time::Duration` (standard library,
external). Rust keeps seconds plus sub-second nanoseconds with the
invariant `nanos < 10^9`; we carry the total in nanoseconds, which is
equivalent under that invariant. -/
structure Duration where
  total_nanos : Nat
deriving DecidableEq

def Duration.from_secs (s : Nat) : Duration := ⟨s * 1000000000⟩

def Duration.from_millis (ms : Nat) : Duration := ⟨ms * 1000000⟩

/-- Rust `Duration::as_millis`: whole milliseconds of the duration. -/
def Duration.as_millis (d : Duration) : Nat := d.total_nanos / 1000000

/-- Rust `Duration::as_micros`: whole microseconds of the duration. -/
def Duration.as_micros (d : Duration) : Nat := d.total_nanos / 1000

/-- Source: `enum Reset` (`src/builders/types.rs:1-5`). -/
inductive Reset | latest | earliest | none
deriving DecidableEq

/-- Source: `impl ToString for Reset` (`src/builders/types.rs:6-15`). -/
def Reset.to_string : Reset → String
  | .latest => "latest"
  | .earliest => "earliest"
  | .none => "none"

/-- Source: `enum DnsLookup` (`src/builders/types.rs:17-20`). -/
inductive DnsLookup | useAllDnsIps | resolveCanonicalBootstrapServersOnly
deriving DecidableEq

/-- Source: `impl ToString for DnsLookup` (`src/builders/types.rs:21-31`). -/
def DnsLookup.to_string : DnsLookup → String
  | .useAllDnsIps => "use_all_dns_ips"
  | .resolveCanonicalBootstrapServersOnly => "resolve_canonical_bootstrap_servers_only"

/-- Source: `enum RecordingLevel` (`src/builders/types.rs:33-37`). -/
inductive RecordingLevel | trace | debug | info
deriving DecidableEq

/-- Source: `impl ToString for RecordingLevel` (`src/builders/types.rs:38-47`). -/
def RecordingLevel.to_string : RecordingLevel → String
  | .trace => "TRACE"
  | .debug => "DEBUG"
  | .info => "INFO"

/-- Source: `enum SecurityProtocol` (`src/builders/types.rs:49-54`). -/
inductive SecurityProtocol | plaintext | ssl | saslPlaintext | saslSsl
deriving DecidableEq

/-- Source: `impl ToString for SecurityProtocol` (`src/builders/types.rs:55-65`). -/
def SecurityProtocol.to_string : SecurityProtocol → String
  | .plaintext => "PLAINTEXT"
  | .ssl => "SSL"
  | .saslPlaintext => "SASL_PLAINTEXT"
  | .saslSsl => "SASL_SSL"

/-- Rust `flat_map(|val| [val.as_ref(), ","])`: each element followed by a
comma, in order (`src/builders/traits.rs:22-24`). -/
def interleaveCommas : List String → List String
  | [] => []
  | u :: rest => u :: "," :: interleaveCommas rest

/-- Rust `collect::<String>()`: concatenation of the iterator's strings. -/
def collectString : List String → String
  | [] => ""
  | p :: rest => p ++ collectString rest

namespace KafkaConfigBuilder

variable {β : Type} [Set β]

/-- Source: `KafkaConfigBuilder::bootstrap_servers` (`src/builders/traits.rs:19-27`). -/
def bootstrap_servers (b : β) (urls : List String) : β :=
  Set.set b "bootstrap.servers" (collectString (interleaveCommas urls))

/-- Source: `KafkaConfigBuilder::client_dns_lookup` (`src/builders/traits.rs:31-34`). -/
def client_dns_lookup (b : β) (lookup : DnsLookup) : β :=
  Set.set b "client.dns.lookup" lookup.to_string

/-- Source: `KafkaConfigBuilder::client_id` (`src/builders/traits.rs:38-41`). -/
def client_id (b : β) (id : String) : β :=
  Set.set b "client.id" id

/-- Source: `KafkaConfigBuilder::connections_max_idle` (`src/builders/traits.rs:45-48`). -/
def connections_max_idle (b : β) (idle : Duration) : β :=
  Set.set b "connections.max.idle.ms" (toString idle.as_millis)

/-- Source: `KafkaConfigBuilder::metadata_max_age` (`src/builders/traits.rs:52-55`). -/
def metadata_max_age (b : β) (age : Duration) : β :=
  Set.set b "metadata.max.age.ms" (toString age.as_millis)

/-- Source: `KafkaConfigBuilder::metric_reporters` (`src/builders/traits.rs:59-67`). -/
def metric_reporters (b : β) (vals : List String) : β :=
  Set.set b "metric.reporters" (collectString (interleaveCommas vals))

/-- Source: `KafkaConfigBuilder::metrics_num_samples` (`src/builders/traits.rs:71-74`). -/
def metrics_num_samples (b : β) (val : Nat) : β :=
  Set.set b "metrics.num.samples" (toString val)

/-- Source: `KafkaConfigBuilder::metrics_recording_level` (`src/builders/traits.rs:78-81`). -/
def metrics_recording_level (b : β) (val : RecordingLevel) : β :=
  Set.set b "metrics.recording.level" val.to_string

/-- Source: `KafkaConfigBuilder::metrics_sample_window` (`src/builders/traits.rs:85-88`). -/
def metrics_sample_window (b : β) (window : Duration) : β :=
  Set.set b "metrics.sample.window.ms" (toString window.as_millis)

/-- Source: `KafkaConfigBuilder::receive_buffer_bytes` (`src/builders/traits.rs:92-95`). -/
def receive_buffer_bytes (b : β) (count : Int) : β :=
  Set.set b "receive.buffer.bytes" (toString count)

/-- Source: `KafkaConfigBuilder::reconnect_backoff_max` (`src/builders/traits.rs:99-102`). -/
def reconnect_backoff_max (b : β) (max : Duration) : β :=
  Set.set b "reconnect.backoff.max.ms" (toString max.as_millis)

/-- Source: `KafkaConfigBuilder::reconnect_backoff` (`src/builders/traits.rs:106-109`). -/
def reconnect_backoff (b : β) (backoff : Duration) : β :=
  Set.set b "reconnect.backoff.ms" (toString backoff.as_millis)

/-- Source: `KafkaConfigBuilder::request_timeout` (`src/builders/traits.rs:113-116`). -/
def request_timeout (b : β) (timeout : Duration) : β :=
  Set.set b "request.timeout.ms" (toString timeout.as_millis)

/-- Source: `KafkaConfigBuilder::retry_backoff` (`src/builders/traits.rs:120-123`). -/
def retry_backoff (b : β) (backoff : Duration) : β :=
  Set.set b "retry.backoff.ms" (toString backoff.as_millis)

/-- Source: `KafkaConfigBuilder::security_protocol` (`src/builders/traits.rs:127-130`). -/
def security_protocol (b : β) (protocol : SecurityProtocol) : β :=
  Set.set b "security.protocol" protocol.to_string

/-- Source: `KafkaConfigBuilder::security_providers` (`src/builders/traits.rs:134-142`). -/
def security_providers (b : β) (vals : List String) : β :=
  Set.set b "security.providers" (collectString (interleaveCommas vals))

/-- Source: `KafkaConfigBuilder::send_buffer_bytes` (`src/builders/traits.rs:146-149`). -/
def send_buffer_bytes (b : β) (count : Nat) : β :=
  Set.set b "send.buffer.bytes" (toString count)

/-- Source: `KafkaConfigBuilder::socket_connection_setup_timeout_max`
(`src/builders/traits.rs:153-156`). -/
def socket_connection_setup_timeout_max (b : β) (max : Duration) : β :=
  Set.set b "socket.connection.setup.timeout.max.ms" (toString max.as_millis)

/-- Source: `KafkaConfigBuilder::socket_connection_setup_timeout`
(`src/builders/traits.rs:160-163`). -/
def socket_connection_setup_timeout (b : β) (val : Duration) : β :=
  Set.set b "socket.connection.setup.timeout.ms" (toString val.as_millis)

end KafkaConfigBuilder

namespace SslConfigBuilder

variable {β : Type} [Set β]

/-- Source: `SslConfigBuilder::ssl_key_password` (`src/builders/traits.rs:170-173`). -/
def ssl_key_password (b : β) (password : String) : β :=
  Set.set b "ssl.key.password" password

/-- Source: `SslConfigBuilder::ssl_keystore_certificate_chain`
(`src/builders/traits.rs:175-178`). -/
def ssl_keystore_certificate_chain (b : β) (chain : String) : β :=
  Set.set b "ssl.keystore.certificate.chain" chain

/-- Source: `SslConfigBuilder::ssl_keystore_key` (`src/builders/traits.rs:182-185`). -/
def ssl_keystore_key (b : β) (key : String) : β :=
  Set.set b "ssl.keystore.key" key

end SslConfigBuilder

namespace ApiTimeoutConfigBuilder

/-- Source: `ApiTimeoutConfigBuilder::default_api_timeout`
(`src/builders/traits.rs:194-197`); note the value written is
`timeout.as_micros()`. -/
def default_api_timeout {β : Type} [Set β] (b : β) (timeout : Duration) : β :=
  Set.set b "default.api.timeout.ms" (toString timeout.as_micros)

end ApiTimeoutConfigBuilder

namespace RetriesConfigBuilder

/-- Source: `RetriesConfigBuilder::retries` (`src/builders/traits.rs:201-204`). -/
def retries {β : Type} [Set β] (b : β) (count : Nat) : β :=
  Set.set b "retries" (toString count)

end RetriesConfigBuilder

namespace ConsumerConfigBuilder

/-- Source: `ConsumerConfigBuilder::fetch_min_bytes` (`src/builders/mod.rs:76-79`). -/
def fetch_min_bytes (b : ConsumerConfigBuilder) (count : Nat) : ConsumerConfigBuilder :=
  Set.set b "fetch.min.bytes" (toString count)

/-- Source: `ConsumerConfigBuilder::group_id` (`src/builders/mod.rs:85-88`). -/
def group_id (b : ConsumerConfigBuilder) (id : String) : ConsumerConfigBuilder :=
  Set.set b "group.id" id

/-- Source: `ConsumerConfigBuilder::heartbeat_interval` (`src/builders/mod.rs:92-95`);
the value written is `interval.as_micros()`. -/
def heartbeat_interval (b : ConsumerConfigBuilder) (interval : Duration) : ConsumerConfigBuilder :=
  Set.set b "heartbeat.interval.ms" (toString interval.as_micros)

/-- Source: `ConsumerConfigBuilder::max_partition_fetch_bytes`
(`src/builders/mod.rs:99-102`). -/
def max_partition_fetch_bytes (b : ConsumerConfigBuilder) (count : Nat) : ConsumerConfigBuilder :=
  Set.set b "max.partition.fetch.bytes" (toString count)

/-- Source: `ConsumerConfigBuilder::session_timeout` (`src/builders/mod.rs:106-109`);
the value written is `timeout.as_micros()`. -/
def session_timeout (b : ConsumerConfigBuilder) (timeout : Duration) : ConsumerConfigBuilder :=
  Set.set b "session.timeout.ms" (toString timeout.as_micros)

/-- Source: `ConsumerConfigBuilder::allow_auto_create_topics`
(`src/builders/mod.rs:117-120`). -/
def allow_auto_create_topics (b : ConsumerConfigBuilder) (allow : Bool) : ConsumerConfigBuilder :=
  Set.set b "allow.auto.create.topics" (toString allow)

/-- Source: `ConsumerConfigBuilder::auto_offset_reset` (`src/builders/mod.rs:129-132`). -/
def auto_offset_reset (b : ConsumerConfigBuilder) (reset : Reset) : ConsumerConfigBuilder :=
  Set.set b "auto.offset.reset" reset.to_string

/-- Source: the inherent `ConsumerConfigBuilder::connections_max_idle`
(`src/builders/mod.rs:136-139`); unlike the capability-trait method of the
same name it writes `idle.as_micros()`. -/
def connections_max_idle (b : ConsumerConfigBuilder) (idle : Duration) : ConsumerConfigBuilder :=
  Set.set b "connections.max.idle.ms" (toString idle.as_micros)

/-- Source: `ConsumerConfigBuilder::default_api_timout` (sic)
(`src/builders/mod.rs:143-146`); the value written is `timeout.as_micros()`. -/
def default_api_timout (b : ConsumerConfigBuilder) (timeout : Duration) : ConsumerConfigBuilder :=
  Set.set b "default.api.timeout.ms" (toString timeout.as_micros)

/-- Source: `ConsumerConfigBuilder::enable_auto_commit` (`src/builders/mod.rs:150-153`). -/
def enable_auto_commit (b : ConsumerConfigBuilder) (commit : Bool) : ConsumerConfigBuilder :=
  Set.set b "enable.auto.commit" (toString commit)

/-- Source: `ConsumerConfigBuilder::exclude_internal_topics`
(`src/builders/mod.rs:157-160`). -/
def exclude_internal_topics (b : ConsumerConfigBuilder) (exclude : Bool) : ConsumerConfigBuilder :=
  Set.set b "exclude.internal.topics" (toString exclude)

/-- Source: `ConsumerConfigBuilder::fetch_max_bytes` (`src/builders/mod.rs:164-167`). -/
def fetch_max_bytes (b : ConsumerConfigBuilder) (count : Nat) : ConsumerConfigBuilder :=
  Set.set b "fetch.max.bytes" (toString count)

/-- Source: `ConsumerConfigBuilder::group_instance_id` (`src/builders/mod.rs:171-174`). -/
def group_instance_id (b : ConsumerConfigBuilder) (id : String) : ConsumerConfigBuilder :=
  Set.set b "group.instance.id" id

/-- Source: `ConsumerConfigBuilder::max_poll_interval` (`src/builders/mod.rs:179-182`);
the value written is `interval.as_micros()`. -/
def max_poll_interval (b : ConsumerConfigBuilder) (interval : Duration) : ConsumerConfigBuilder :=
  Set.set b "max.poll.interval.ms" (toString interval.as_micros)

/-- Source: `ConsumerConfigBuilder::max_poll_records` (`src/builders/mod.rs:186-189`). -/
def max_poll_records (b : ConsumerConfigBuilder) (count : Nat) : ConsumerConfigBuilder :=
  Set.set b "max.poll.records" (toString count)

end ConsumerConfigBuilder

/-- The capability option groups of `src/builders/traits.rs`: general
connectivity (`KafkaConfigBuilder`), TLS (`SslConfigBuilder`), SASL
(`SaslConfigBuilder`), retry policy (`RetriesConfigBuilder`), API timeout
(`ApiTimeoutConfigBuilder`). -/
inductive Capability
  | kafkaGeneral
  | tls
  | sasl
  | retryPolicy
  | apiTimeout
deriving DecidableEq

/-- Source: the trait impl block for `ProducerConfigBuilder`
(`src/builders/mod.rs:35-38`): `SslConfigBuilder`, `SaslConfigBuilder`,
`KafkaConfigBuilder`, `RetriesConfigBuilder`. -/
def producerCapabilities : List Capability :=
  [.tls, .sasl, .kafkaGeneral, .retryPolicy]

/-- Source: the trait impl block for `ConsumerConfigBuilder`
(`src/builders/mod.rs:62-65`): `SslConfigBuilder`, `SaslConfigBuilder`,
`KafkaConfigBuilder`, `ApiTimeoutConfigBuilder`. -/
def consumerCapabilities : List Capability :=
  [.tls, .sasl, .kafkaGeneral, .apiTimeout]

/-- Source: the trait impl block for `AdminConfigBuilder`
(`src/builders/mod.rs:212-216`): `SslConfigBuilder`, `SaslConfigBuilder`,
`KafkaConfigBuilder`, `ApiTimeoutConfigBuilder`, `RetriesConfigBuilder`. -/
def adminCapabilities : List Capability :=
  [.tls, .sasl, .kafkaGeneral, .apiTimeout, .retryPolicy]

/-- Claim C8. TLS and general-connectivity capabilities attach to all three
role builders; the retry-policy capability attaches to the Producer and
Admin builders but not the Consumer builder; the API-timeout capability
attaches to the Consumer and Admin builders but not the Producer builder. -/
theorem C8_capability_role_attachment :
    (Capability.tls ∈ producerCapabilities ∧ Capability.tls ∈ consumerCapabilities
      ∧ Capability.tls ∈ adminCapabilities)
    ∧ (Capability.kafkaGeneral ∈ producerCapabilities
      ∧ Capability.kafkaGeneral ∈ consumerCapabilities
      ∧ Capability.kafkaGeneral ∈ adminCapabilities)
    ∧ (Capability.retryPolicy ∈ producerCapabilities
      ∧ Capability.retryPolicy ∈ adminCapabilities
      ∧ Capability.retryPolicy ∉ consumerCapabilities)
    ∧ (Capability.apiTimeout ∈ consumerCapabilities
      ∧ Capability.apiTimeout ∈ adminCapabilities
      ∧ Capability.apiTimeout ∉ producerCapabilities) := by
  decide

theorem string_append_assoc (a b c : String) : a ++ b ++ c = a ++ (b ++ c) := by
  apply String.ext
  simp [String.data_append, List.append_assoc]

/-- Follows the amended claim's words: the stored bootstrap value is the
concatenation, in order, of each entry immediately followed by a comma
(so a non-empty list ends in a trailing comma, and the empty list yields
the empty string). -/
def joinTrailingComma : List String → String
  | [] => ""
  | u :: rest => u ++ "," ++ joinTrailingComma rest

theorem collectString_interleaveCommas (urls : List String) :
    collectString (interleaveCommas urls) = joinTrailingComma urls := by
  induction urls with
  | nil => rfl
  | cons u rest ih =>
    simp only [interleaveCommas, collectString, joinTrailingComma]
    rw [ih, string_append_assoc]

/-- Claim C6, counterexample. For the one-element list `["localhost:9092"]`
the value stored under "bootstrap.servers" is "localhost:9092," — with a
trailing comma — not the plain comma-join "localhost:9092" the claim
requires. -/
theorem C6_counterexample_trailing_comma :
    (KafkaConfigBuilder.bootstrap_servers ProducerConfigBuilder.new
        ["localhost:9092"]).build.get "bootstrap.servers"
      = some "localhost:9092,"
    ∧ ("localhost:9092," : String) ≠ "localhost:9092" := by
  constructor
  · decide
  · decide

/-- Claim C6 as amended. For every list of host:port strings, on each of
the three role builders, the value stored under "bootstrap.servers" is the
concatenation of each entry immediately followed by a comma (a trailing
comma after the last entry); the empty list yields the empty string. -/
theorem C6_bootstrap_servers_trailing_comma_join (urls : List String) :
    (KafkaConfigBuilder.bootstrap_servers ProducerConfigBuilder.new urls).build.get
        "bootstrap.servers" = some (joinTrailingComma urls)
    ∧ (KafkaConfigBuilder.bootstrap_servers ConsumerConfigBuilder.new urls).build.get
        "bootstrap.servers" = some (joinTrailingComma urls)
    ∧ (KafkaConfigBuilder.bootstrap_servers AdminConfigBuilder.new urls).build.get
        "bootstrap.servers" = some (joinTrailingComma urls)
    ∧ joinTrailingComma [] = "" := by
  refine ⟨?_, ?_, ?_, rfl⟩ <;>
    simp [KafkaConfigBuilder.bootstrap_servers, collectString_interleaveCommas,
      Set.set, ProducerConfigBuilder.build, ConsumerConfigBuilder.build,
      AdminConfigBuilder.build, ClientConfig.new, ClientConfig.set,
      ClientConfig.get, setEntries, getEntry]

/-- Claim C5, code evaluation at the failing inputs. For a one-second
duration, the consumer's `heartbeat_interval` and `session_timeout`
setters and the shared `default_api_timeout` capability setter store the
string "1000000" (the duration in microseconds) under their `.ms` keys,
not the whole-millisecond value "1000" the claim requires. -/
theorem C5_duration_setters_write_microseconds :
    (ConsumerConfigBuilder.new.heartbeat_interval (Duration.from_secs 1)).build.get
        "heartbeat.interval.ms" = some "1000000"
    ∧ (ConsumerConfigBuilder.new.session_timeout (Duration.from_secs 1)).build.get
        "session.timeout.ms" = some "1000000"
    ∧ (ApiTimeoutConfigBuilder.default_api_timeout AdminConfigBuilder.new
        (Duration.from_secs 1)).build.get "default.api.timeout.ms" = some "1000000"
    ∧ ("1000000" : String) ≠ "1000" := by
  refine ⟨?_, ?_, ?_, ?_⟩ <;> decide

/-- The option-setting calls available on `AdminConfigBuilder`: the
methods of its capability traits (`KafkaConfigBuilder`, `SslConfigBuilder`,
`SaslConfigBuilder` (empty), `ApiTimeoutConfigBuilder`,
`RetriesConfigBuilder`), per the impl block at `src/builders/mod.rs:212-216`;
the admin builder has no inherent setters of its own. -/
inductive AdminCall
  | bootstrap_servers (urls : List String)
  | client_dns_lookup (lookup : DnsLookup)
  | client_id (id : String)
  | connections_max_idle (idle : Duration)
  | metadata_max_age (age : Duration)
  | metric_reporters (vals : List String)
  | metrics_num_samples (val : Nat)
  | metrics_recording_level (val : RecordingLevel)
  | metrics_sample_window (window : Duration)
  | receive_buffer_bytes (count : Int)
  | reconnect_backoff_max (m : Duration)
  | reconnect_backoff (backoff : Duration)
  | request_timeout (timeout : Duration)
  | retry_backoff (backoff : Duration)
  | security_protocol (protocol : SecurityProtocol)
  | security_providers (vals : List String)
  | send_buffer_bytes (count : Nat)
  | socket_connection_setup_timeout_max (m : Duration)
  | socket_connection_setup_timeout (val : Duration)
  | ssl_key_password (password : String)
  | ssl_keystore_certificate_chain (chain : String)
  | ssl_keystore_key (key : String)
  | default_api_timeout (timeout : Duration)
  | retries (count : Nat)
deriving DecidableEq

/-- Interpretation of an `AdminCall` by the corresponding setter. -/
def applyAdminCall (b : AdminConfigBuilder) : AdminCall → AdminConfigBuilder
  | .bootstrap_servers urls => KafkaConfigBuilder.bootstrap_servers b urls
  | .client_dns_lookup lookup => KafkaConfigBuilder.client_dns_lookup b lookup
  | .client_id id => KafkaConfigBuilder.client_id b id
  | .connections_max_idle idle => KafkaConfigBuilder.connections_max_idle b idle
  | .metadata_max_age age => KafkaConfigBuilder.metadata_max_age b age
  | .metric_reporters vals => KafkaConfigBuilder.metric_reporters b vals
  | .metrics_num_samples val => KafkaConfigBuilder.metrics_num_samples b val
  | .metrics_recording_level val => KafkaConfigBuilder.metrics_recording_level b val
  | .metrics_sample_window window => KafkaConfigBuilder.metrics_sample_window b window
  | .receive_buffer_bytes count => KafkaConfigBuilder.receive_buffer_bytes b count
  | .reconnect_backoff_max m => KafkaConfigBuilder.reconnect_backoff_max b m
  | .reconnect_backoff backoff => KafkaConfigBuilder.reconnect_backoff b backoff
  | .request_timeout timeout => KafkaConfigBuilder.request_timeout b timeout
  | .retry_backoff backoff => KafkaConfigBuilder.retry_backoff b backoff
  | .security_protocol protocol => KafkaConfigBuilder.security_protocol b protocol
  | .security_providers vals => KafkaConfigBuilder.security_providers b vals
  | .send_buffer_bytes count => KafkaConfigBuilder.send_buffer_bytes b count
  | .socket_connection_setup_timeout_max m =>
      KafkaConfigBuilder.socket_connection_setup_timeout_max b m
  | .socket_connection_setup_timeout val =>
      KafkaConfigBuilder.socket_connection_setup_timeout b val
  | .ssl_key_password password => SslConfigBuilder.ssl_key_password b password
  | .ssl_keystore_certificate_chain chain =>
      SslConfigBuilder.ssl_keystore_certificate_chain b chain
  | .ssl_keystore_key key => SslConfigBuilder.ssl_keystore_key b key
  | .default_api_timeout timeout => ApiTimeoutConfigBuilder.default_api_timeout b timeout
  | .retries count => RetriesConfigBuilder.retries b count

def applyAdminCalls (b : AdminConfigBuilder) : List AdminCall → AdminConfigBuilder
  | [] => b
  | c :: rest => applyAdminCalls (applyAdminCall b c) rest

/-- The option name each admin setter writes (each setter performs exactly
one `set` call with a fixed key). -/
def AdminCall.keyWritten : AdminCall → String
  | .bootstrap_servers _ => "bootstrap.servers"
  | .client_dns_lookup _ => "client.dns.lookup"
  | .client_id _ => "client.id"
  | .connections_max_idle _ => "connections.max.idle.ms"
  | .metadata_max_age _ => "metadata.max.age.ms"
  | .metric_reporters _ => "metric.reporters"
  | .metrics_num_samples _ => "metrics.num.samples"
  | .metrics_recording_level _ => "metrics.recording.level"
  | .metrics_sample_window _ => "metrics.sample.window.ms"
  | .receive_buffer_bytes _ => "receive.buffer.bytes"
  | .reconnect_backoff_max _ => "reconnect.backoff.max.ms"
  | .reconnect_backoff _ => "reconnect.backoff.ms"
  | .request_timeout _ => "request.timeout.ms"
  | .retry_backoff _ => "retry.backoff.ms"
  | .security_protocol _ => "security.protocol"
  | .security_providers _ => "security.providers"
  | .send_buffer_bytes _ => "send.buffer.bytes"
  | .socket_connection_setup_timeout_max _ => "socket.connection.setup.timeout.max.ms"
  | .socket_connection_setup_timeout _ => "socket.connection.setup.timeout.ms"
  | .ssl_key_password _ => "ssl.key.password"
  | .ssl_keystore_certificate_chain _ => "ssl.keystore.certificate.chain"
  | .ssl_keystore_key _ => "ssl.keystore.key"
  | .default_api_timeout _ => "default.api.timeout.ms"
  | .retries _ => "retries"

/-- The textual value each admin setter writes. -/
def AdminCall.valueWritten : AdminCall → String
  | .bootstrap_servers urls => collectString (interleaveCommas urls)
  | .client_dns_lookup lookup => lookup.to_string
  | .client_id id => id
  | .connections_max_idle idle => toString idle.as_millis
  | .metadata_max_age age => toString age.as_millis
  | .metric_reporters vals => collectString (interleaveCommas vals)
  | .metrics_num_samples val => toString val
  | .metrics_recording_level val => val.to_string
  | .metrics_sample_window window => toString window.as_millis
  | .receive_buffer_bytes count => toString count
  | .reconnect_backoff_max m => toString m.as_millis
  | .reconnect_backoff backoff => toString backoff.as_millis
  | .request_timeout timeout => toString timeout.as_millis
  | .retry_backoff backoff => toString backoff.as_millis
  | .security_protocol protocol => protocol.to_string
  | .security_providers vals => collectString (interleaveCommas vals)
  | .send_buffer_bytes count => toString count
  | .socket_connection_setup_timeout_max m => toString m.as_millis
  | .socket_connection_setup_timeout val => toString val.as_millis
  | .ssl_key_password password => password
  | .ssl_keystore_certificate_chain chain => chain
  | .ssl_keystore_key key => key
  | .default_api_timeout timeout => toString timeout.as_micros
  | .retries count => toString count

/-- Whether the call is the retry-policy setter `retries`. -/
def AdminCall.isRetriesCall : AdminCall → Bool
  | .retries _ => true
  | _ => false

theorem applyAdminCall_eq_set (b : AdminConfigBuilder) (c : AdminCall) :
    applyAdminCall b c = Set.set b c.keyWritten c.valueWritten := by
  cases c <;> rfl

theorem keyWritten_ne_retries (c : AdminCall) (h : c.isRetriesCall = false) :
    c.keyWritten ≠ "retries" := by
  cases c <;> first
    | (simp only [AdminCall.keyWritten]; decide)
    | (simp [AdminCall.isRetriesCall] at h)

theorem applyAdminCalls_get_retries (calls : List AdminCall) :
    ∀ b : AdminConfigBuilder, (∀ c ∈ calls, c.isRetriesCall = false) →
      (applyAdminCalls b calls).config.get "retries" = b.config.get "retries" := by
  induction calls with
  | nil => intro b _; rfl
  | cons c rest ih =>
    intro b h
    have hc : c.isRetriesCall = false := h c (List.mem_cons_self c rest)
    have hrest : ∀ c' ∈ rest, c'.isRetriesCall = false :=
      fun c' hc' => h c' (List.mem_cons_of_mem c hc')
    simp only [applyAdminCalls]
    rw [ih (applyAdminCall b c) hrest, applyAdminCall_eq_set]
    show (b.config.set c.keyWritten c.valueWritten).get "retries" = b.config.get "retries"
    rw [ClientConfig.get_set]
    simp [Ne.symm (keyWritten_ne_retries c hc)]

/-- Claim C7. An Admin builder on which the `retries` setter was never
called — any sequence of the other admin setters — yields, via `build`, a
configuration in which the "retries" option name is entirely absent. -/
theorem C7_retries_absent_when_unset (calls : List AdminCall)
    (h : ∀ c ∈ calls, c.isRetriesCall = false) :
    (applyAdminCalls AdminConfigBuilder.new calls).build.get "retries" = none := by
  show (applyAdminCalls AdminConfigBuilder.new calls).config.get "retries" = none
  rw [applyAdminCalls_get_retries calls AdminConfigBuilder.new h]
  rfl

/-- Claim C7, witness: a concrete admin builder with a client id and a
request timeout set, and no retries call, omits "retries" from the built
configuration. -/
theorem C7_retries_absent_when_unset_witness :
    (applyAdminCalls AdminConfigBuilder.new
        [AdminCall.client_id "svc",
         AdminCall.request_timeout (Duration.from_secs 30)]).build.get "retries" = none :=
  C7_retries_absent_when_unset
    [AdminCall.client_id "svc", AdminCall.request_timeout (Duration.from_secs 30)]
    (by decide)

/-- Claim C10. A single option-setting call through a role builder's `Set`
implementation adds or overwrites only the one option name it writes: the
value looked up under every other name is unchanged (so entries under other
names are neither altered nor removed). Stated for all three role builders'
`set`, and for the consumer's `group_id` setter as the cited concrete
instance. -/
theorem C10_set_frame :
    (∀ (b : ProducerConfigBuilder) (k v k' : String), k' ≠ k →
      (Set.set b k v).config.get k' = b.config.get k')
    ∧ (∀ (b : ConsumerConfigBuilder) (k v k' : String), k' ≠ k →
      (Set.set b k v).config.get k' = b.config.get k')
    ∧ (∀ (b : AdminConfigBuilder) (k v k' : String), k' ≠ k →
      (Set.set b k v).config.get k' = b.config.get k')
    ∧ (∀ (b : ConsumerConfigBuilder) (g k' : String), k' ≠ "group.id" →
      (b.group_id g).config.get k' = b.config.get k') := by
  refine ⟨?_, ?_, ?_, ?_⟩
  · intro b k v k' hk
    show (b.config.set k v).get k' = b.config.get k'
    rw [ClientConfig.get_set]
    simp [hk]
  · intro b k v k' hk
    show (b.config.set k v).get k' = b.config.get k'
    rw [ClientConfig.get_set]
    simp [hk]
  · intro b k v k' hk
    show (b.config.set k v).get k' = b.config.get k'
    rw [ClientConfig.get_set]
    simp [hk]
  · intro b g k' hk
    show (b.config.set "group.id" g).get k' = b.config.get k'
    rw [ClientConfig.get_set]
    simp [hk]

/-- Claim C10, witness: on a consumer builder holding `group.id = "g1"`, a
subsequent set of "heartbeat.interval.ms" leaves the "group.id" entry
present and unchanged. -/
theorem C10_set_frame_witness :
    (Set.set (ConsumerConfigBuilder.new.group_id "g1")
        "heartbeat.interval.ms" "3000000").config.get "group.id" = some "g1" := by
  rw [C10_set_frame.2.1 (ConsumerConfigBuilder.new.group_id "g1")
    "heartbeat.interval.ms" "3000000" "group.id" (by decide)]
  decide

/-- Source: `enum Update { Thing1, Thing2 }`, the repository's concrete
payload type from the example module (`src/lib.rs:150-154`). -/
inductive Update
  | Thing1
  | Thing2
deriving DecidableEq

/-- Modelled from the spec: the default codec (serde_json, an external
collaborator) encodes a unit enum variant as the JSON string of the
variant name; `serde_json::to_vec(&Update::Thing1)` yields the bytes of
the text below. Byte buffers are modelled as strings. -/
def encodeUpdate : Update → String
  | .Thing1 => "\"Thing1\""
  | .Thing2 => "\"Thing2\""

def isJsonSpace (c : Char) : Bool :=
  c = ' ' || c = '\t' || c = '\n' || c = '\r'

def dropJsonWs : List Char → List Char
  | [] => []
  | c :: rest => if isJsonSpace c then dropJsonWs rest else c :: rest

/-- Reads characters up to an unescaped closing quote; returns the body and
the remainder. Escape sequences are not needed for this payload type and
are rejected. -/
def takeJsonStringBody : List Char → Option (List Char × List Char)
  | [] => none
  | c :: rest =>
    if c = '"' then some ([], rest)
    else if c = '\\' then none
    else
      match takeJsonStringBody rest with
      | some (body, after) => some (c :: body, after)
      | none => none

/-- Modelled from the spec: `serde_json::from_slice::<Update>` (external
collaborator). The input must be a JSON string (surrounded by optional
whitespace) whose content names one of the two variants; anything else is
a serialization error. -/
def from_sliceUpdate (bytes : String) : Except String Update :=
  match dropJsonWs bytes.toList with
  | '"' :: rest =>
    match takeJsonStringBody rest with
    | some (body, after) =>
      if dropJsonWs after = [] then
        if body = "Thing1".toList then Except.ok Update.Thing1
        else if body = "Thing2".toList then Except.ok Update.Thing2
        else Except.error "unknown variant"
      else Except.error "trailing characters"
    | none => Except.error "EOF while parsing a string"
  | _ => Except.error "expected value"

/-- The serde codec interface used by the typed layer: `to_vec` is the
serialization `TypedProducer::send` applies, `from_slice` the
deserialization `TypedMessage::payload` applies. -/
class SerdeCodec (α : Type) where
  to_vec : α → Except String String
  from_slice : String → Except String α

instance : SerdeCodec Update where
  to_vec v := Except.ok (encodeUpdate v)
  from_slice := from_sliceUpdate

/-- Claim C9. For every payload value of the repository's payload type,
decoding the bytes produced by the default codec's encoding returns the
original value: the deserialization used by `TypedMessage::payload` is a
left inverse of the serialization used by `TypedProducer::send`. -/
theorem C9_codec_round_trip (v : Update) :
    (SerdeCodec.to_vec v).bind (SerdeCodec.from_slice (α := Update)) = Except.ok v := by
  cases v <;> rfl

/-- The outcome of a Rust computation that may `panic!` (via `.unwrap()`):
either a process abort carrying the panic message, or a value. -/
inductive PanicOr (α : Type)
  | panicked (msg : String)
  | ok (a : α)
deriving DecidableEq

/-- Modelled from the spec: rdkafka's `BorrowedMessage` (external), the raw
received message — optional key bytes, optional payload bytes, partition,
offset. Byte buffers are modelled as strings. -/
structure BorrowedMessage where
  key : Option String
  payload : Option String
  partition : Int
  offset : Int
deriving DecidableEq

/-- Source: `struct SessionTopic { id: String }`, the example `Topic`
implementation (`src/lib.rs:156-166`). -/
structure SessionTopic where
  id : String
deriving DecidableEq

/-- Source: `SessionTopic::topic_string` (`src/lib.rs:163-165`). -/
def SessionTopic.topic_string (t : SessionTopic) : String := "session:" ++ t.id

/-- Source: `struct TypedMessage<'a, T> { message: BorrowedMessage<'a>,
topic: T }` (`src/lib.rs:23-26`); `α` stands for `T::Payload`. -/
structure TypedMessage (T α : Type) where
  message : BorrowedMessage
  topic : T

/-- Source: `TypedMessage::key` (`src/lib.rs:28-30`). -/
def TypedMessage.key {T α : Type} (m : TypedMessage T α) : Option String :=
  m.message.key

/-- Source: `TypedMessage::payload` (`src/lib.rs:31-35`):
`self.message.payload().map(|val| serde_json::from_slice(val).unwrap())` —
absent raw payload maps to `None`; present raw payload is decoded and the
result `.unwrap()`ed, so a decode error panics with the error message. -/
def TypedMessage.payload {T α : Type} [SerdeCodec α] (m : TypedMessage T α) :
    PanicOr (Option α) :=
  match m.message.payload with
  | none => PanicOr.ok none
  | some bytes =>
    match SerdeCodec.from_slice (α := α) bytes with
    | Except.ok v => PanicOr.ok (some v)
    | Except.error e => PanicOr.panicked e

/-- Modelled from the spec: rdkafka's broker/transport errors surfaced on
send/receive/admin calls (timeout, not-leader, disconnect, ...). -/
inductive KafkaError
  | messageTimedOut
  | notLeaderForPartition
  | otherError (desc : String)
deriving DecidableEq

def KafkaError.describe : KafkaError → String
  | .messageTimedOut => "Message timed out"
  | .notLeaderForPartition => "Not leader for partition"
  | .otherError d => d

/-- Source: `TypedProducer::send` (`src/lib.rs:63-81`). The underlying
`FutureProducer::send` is external; its outcome — delivery (partition,
offset) or a broker error — is the `brokerResult` argument. The embedding
is faithful to the two `.unwrap()` calls: a serialization error panics
before the record is built, and a broker error panics after the await.
The key is attached to the record but does not change the outcome shape. -/
def TypedProducer.send {α : Type} [SerdeCodec α] (_topic_string : String) (payload : α)
    (_key : Option String) (brokerResult : Except KafkaError (Int × Int)) : PanicOr Unit :=
  match SerdeCodec.to_vec (α := α) payload with
  | Except.error e => PanicOr.panicked e
  | Except.ok _bytes =>
    match brokerResult with
    | Except.error e => PanicOr.panicked e.describe
    | Except.ok _delivery => PanicOr.ok ()

/-- Modelled from the spec: per-topic creation failure codes returned by
the broker inside a `TopicResult` ("already exists", "invalid replication
factor", ...). -/
inductive TopicErrorCode
  | topicAlreadyExists
  | invalidReplicationFactor
  | otherCode (n : Int)
deriving DecidableEq

/-- Source: `TypedAdmin::create_topic` (`src/lib.rs:124-142`). The broker's
reply to `create_topics` is external and passed as `apiResult`: a
client-level error, or one per-topic result (created topic name, or topic
name with error code) per requested topic. The chain
`.unwrap().first().unwrap().as_ref().unwrap()` is embedded faithfully:
each `Err`/`None` along it panics, and on success the result is discarded
and `()` returned. -/
def TypedAdmin.create_topic (_topic_string : String) (_num_partitions : Int)
    (apiResult : Except KafkaError (List (Except (String × TopicErrorCode) String))) :
    PanicOr Unit :=
  match apiResult with
  | Except.error e => PanicOr.panicked e.describe
  | Except.ok results =>
    match results with
    | [] => PanicOr.panicked "called Option::unwrap() on a None value"
    | r :: _ =>
      match r with
      | Except.error err => PanicOr.panicked ("TopicCreationError: " ++ err.1)
      | Except.ok _name => PanicOr.ok ()

/-- Claim C1, code evaluation at the failing input. A received message
whose raw payload bytes are present but do not decode as the topic's
payload type makes `TypedMessage::payload` panic (abort the process via
`.unwrap()`) instead of returning a serialization error; a message with no
raw payload returns `None`. -/
theorem C1_payload_panics_on_undecodable_bytes :
    TypedMessage.payload (T := SessionTopic) (α := Update)
        { message := { key := none, payload := some "not json", partition := 0, offset := 0 },
          topic := { id := "abc" } }
      = PanicOr.panicked "expected value"
    ∧ TypedMessage.payload (T := SessionTopic) (α := Update)
        { message := { key := none, payload := none, partition := 0, offset := 0 },
          topic := { id := "abc" } }
      = PanicOr.ok none :=
  ⟨rfl, rfl⟩

/-- Claim C2, code evaluation at the failing input. A broker-level send
failure (here: message timed out) makes `TypedProducer::send` panic via
`.unwrap()` instead of returning an error outcome to the caller. -/
theorem C2_send_panics_on_broker_error :
    TypedProducer.send (α := Update) "session:abc" Update.Thing1 none
        (Except.error KafkaError.messageTimedOut)
      = PanicOr.panicked "Message timed out" :=
  rfl

/-- Claim C3, code evaluation at the failing input. A per-topic failure
result from the broker (here: topic already exists) makes
`TypedAdmin::create_topic` panic via `.unwrap()` instead of reporting an
administrative failure to the caller. -/
theorem C3_create_topic_panics_on_per_topic_failure :
    TypedAdmin.create_topic "session:abc" 1
        (Except.ok [Except.error ("session:abc", TopicErrorCode.topicAlreadyExists)])
      = PanicOr.panicked "TopicCreationError: session:abc" :=
  rfl

end RdkafkaExt
